import Mathlib

/-!
Shallow embedding of `src/weather_dashboard.py` (class `WeatherDashboard` and
its `main` orchestrator).

External effects (boto3 S3 calls, `requests.get`, `matplotlib` display,
console `print`) are modelled by passing the outcome of each external call as
an explicit argument and by recording the calls the program performs as an
event trace.  Machine-level details that the program never touches (JSON text
round-tripping, HTTP wire format) are modelled at the value level: a JSON
document is the `Json` tree itself, and an uploaded body is the serialized
tree, recorded as the tree.

The two weather endpoints return JSON objects (spec section 3: WeatherReading
and ForecastSeries are JSON objects), so payloads handled by the persistence
writer and the orchestrator are typed as JSON objects, that is association
lists of string keys to JSON values, exactly what a parsed Python dict is.
-/

/-- JSON values, as produced by `response.json()`. -/
inductive Json where
  | null
  | bool (b : Bool)
  | num (q : ℚ)
  | str (s : String)
  | arr (elems : List Json)
  | obj (fields : List (String × Json))

/-- A parsed JSON object (a Python dict): ordered association list. -/
abbrev JsonObj := List (String × Json)

/-- Python dict item assignment `d[k] = v`: overwrite the (unique) existing
entry for `k` in place, otherwise append the new entry at the end.  This is
the model of `weather_data['timestamp'] = timestamp`. -/
def objSet : JsonObj → String → Json → JsonObj
  | [], k, v => [(k, v)]
  | (k1, v1) :: rest, k, v =>
    if k1 = k then (k, v) :: rest else (k1, v1) :: objSet rest k v

/-- Python truthiness of a fetch result: `None` and the empty dict are falsy,
any non-empty dict is truthy.  Models `if weather_data and forecast_data:`
and `if not weather_data:`. -/
def truthyObj : Option JsonObj → Bool
  | none => false
  | some l => !l.isEmpty

theorem objSet_lookup (l : JsonObj) (k : String) (v : Json) :
    List.lookup k (objSet l k v) = some v := by
  induction l with
  | nil => simp [objSet, List.lookup]
  | cons hd tl ih =>
    obtain ⟨k1, v1⟩ := hd
    by_cases h : k1 = k
    · simp [objSet, h, List.lookup]
    · have h1 : (k1 == k) = false := beq_eq_false_iff_ne.mpr h
      have h2 : (k == k1) = false := beq_eq_false_iff_ne.mpr (Ne.symm h)
      simp [objSet, h, List.lookup, h1, h2, ih]

theorem objSet_mem_iff (l : JsonObj) (key : String) (w : Json)
    (k : String) (v : Json) (hk : k ≠ key) :
    (k, v) ∈ objSet l key w ↔ (k, v) ∈ l := by
  induction l with
  | nil => simp [objSet, hk]
  | cons hd tl ih =>
    obtain ⟨k1, v1⟩ := hd
    by_cases h : k1 = key
    · subst h
      have he : objSet ((k1, v1) :: tl) k1 w = (k1, w) :: tl := by
        simp [objSet]
      rw [he, List.mem_cons, List.mem_cons]
      constructor
      · rintro (h1 | h1)
        · exact absurd (congrArg Prod.fst h1) hk
        · exact Or.inr h1
      · rintro (h1 | h1)
        · exact absurd (congrArg Prod.fst h1) hk
        · exact Or.inr h1
    · have he : objSet ((k1, v1) :: tl) key w = (k1, v1) :: objSet tl key w := by
        simp [objSet, h]
      rw [he, List.mem_cons, List.mem_cons, ih]

/-! ## The capture timestamp: `datetime.now().strftime('%Y%m%d-%H%M%S')` -/

/-- A wall-clock instant as `datetime.now()` observes it. -/
structure DateTime where
  year : Nat
  month : Nat
  day : Nat
  hour : Nat
  minute : Nat
  second : Nat

/-- The ranges a real `datetime.now()` value satisfies (year restricted to
four digits, which covers every value `now()` can return in practice and is
the range on which `%Y` prints exactly four digits). -/
def validDT (t : DateTime) : Prop :=
  1000 ≤ t.year ∧ t.year ≤ 9999 ∧ 1 ≤ t.month ∧ t.month ≤ 12 ∧
    1 ≤ t.day ∧ t.day ≤ 31 ∧ t.hour ≤ 23 ∧ t.minute ≤ 59 ∧ t.second ≤ 59

instance (t : DateTime) : Decidable (validDT t) := by
  unfold validDT
  infer_instance

/-- The decimal digit character for `n % 10`-style values. -/
def digitChar : Nat → Char
  | 0 => '0'
  | 1 => '1'
  | 2 => '2'
  | 3 => '3'
  | 4 => '4'
  | 5 => '5'
  | 6 => '6'
  | 7 => '7'
  | 8 => '8'
  | _ => '9'

theorem digitChar_isDigit (n : Nat) : (digitChar n).isDigit = true := by
  unfold digitChar
  split <;> decide

/-- Decimal representation of a natural number, most significant digit
first (the digit string `strftime` prints for a field). -/
def natDigits (n : Nat) : List Char :=
  if h : n < 10 then [digitChar n]
  else natDigits (n / 10) ++ [digitChar (n % 10)]
decreasing_by exact Nat.div_lt_self (by omega) (by omega)

theorem natDigits_lt10 (n : Nat) (h : n < 10) : natDigits n = [digitChar n] := by
  rw [natDigits, dif_pos h]

theorem natDigits_ge10 (n : Nat) (h : ¬ n < 10) :
    natDigits n = natDigits (n / 10) ++ [digitChar (n % 10)] := by
  rw [natDigits, dif_neg h]

theorem natDigits_all_digit (n : Nat) :
    ∀ c ∈ natDigits n, c.isDigit = true := by
  induction n using Nat.strong_induction_on with
  | _ n ih =>
    by_cases h : n < 10
    · rw [natDigits_lt10 n h]
      intro c hc
      rw [List.mem_singleton] at hc
      subst hc
      exact digitChar_isDigit n
    · rw [natDigits_ge10 n h]
      intro c hc
      rw [List.mem_append] at hc
      rcases hc with hc | hc
      · exact ih (n / 10) (Nat.div_lt_self (by omega) (by omega)) c hc
      · rw [List.mem_singleton] at hc
        subst hc
        exact digitChar_isDigit (n % 10)

theorem natDigits_len1 (n : Nat) (h : n < 10) : (natDigits n).length = 1 := by
  rw [natDigits_lt10 n h]
  rfl

theorem natDigits_len2 (n : Nat) (h1 : 10 ≤ n) (h2 : n < 100) :
    (natDigits n).length = 2 := by
  rw [natDigits_ge10 n (by omega)]
  rw [List.length_append, natDigits_len1 (n / 10) (by omega)]
  rfl

theorem natDigits_len3 (n : Nat) (h1 : 100 ≤ n) (h2 : n < 1000) :
    (natDigits n).length = 3 := by
  rw [natDigits_ge10 n (by omega)]
  rw [List.length_append, natDigits_len2 (n / 10) (by omega) (by omega)]
  rfl

theorem natDigits_len4 (n : Nat) (h1 : 1000 ≤ n) (h2 : n < 10000) :
    (natDigits n).length = 4 := by
  rw [natDigits_ge10 n (by omega)]
  rw [List.length_append, natDigits_len3 (n / 10) (by omega) (by omega)]
  rfl

/-- Zero-padded two-digit field, as `%m`, `%d`, `%H`, `%M`, `%S` print it. -/
def pad2 (n : Nat) : List Char :=
  if n < 10 then '0' :: natDigits n else natDigits n

theorem pad2_len (n : Nat) (h : n < 100) : (pad2 n).length = 2 := by
  unfold pad2
  by_cases h1 : n < 10
  · rw [if_pos h1]
    simp [natDigits_len1 n h1]
  · rw [if_neg h1]
    exact natDigits_len2 n (by omega) h

theorem pad2_all_digit (n : Nat) : ∀ c ∈ pad2 n, c.isDigit = true := by
  unfold pad2
  by_cases h1 : n < 10
  · rw [if_pos h1]
    intro c hc
    rw [List.mem_cons] at hc
    rcases hc with hc | hc
    · subst hc; decide
    · exact natDigits_all_digit n c hc
  · rw [if_neg h1]
    exact natDigits_all_digit n

/-- `datetime.now().strftime('%Y%m%d-%H%M%S')`. -/
def strftimeYmdHMS (t : DateTime) : String :=
  ⟨natDigits t.year ++ pad2 t.month ++ pad2 t.day ++
    ('-' :: (pad2 t.hour ++ (pad2 t.minute ++ pad2 t.second)))⟩

/-- Full match against the regular expression "eight digits, a dash, six
digits" (the spec pattern for the stored timestamp). -/
def matchesTsPattern (s : String) : Bool :=
  s.data.length == 15 && (s.data.take 8).all Char.isDigit &&
    (s.data.drop 8).head? == some '-' && (s.data.drop 9).all Char.isDigit

theorem strftime_matches (t : DateTime) (h : validDT t) :
    matchesTsPattern (strftimeYmdHMS t) = true := by
  obtain ⟨y, mo, d, hh, mi, se⟩ := t
  simp only [validDT] at h
  obtain ⟨hy1, hy2, hm1, hm2, hd1, hd2, hh2, hmi2, hse2⟩ := h
  have hla : (natDigits y ++ pad2 mo ++ pad2 d).length = 8 := by
    rw [List.length_append, List.length_append]
    rw [natDigits_len4 y hy1 (by omega), pad2_len mo (by omega), pad2_len d (by omega)]
  have hdata : (strftimeYmdHMS ⟨y, mo, d, hh, mi, se⟩).data =
      (natDigits y ++ pad2 mo ++ pad2 d) ++
        ('-' :: (pad2 hh ++ (pad2 mi ++ pad2 se))) := rfl
  have hlb : ('-' :: (pad2 hh ++ (pad2 mi ++ pad2 se))).length = 7 := by
    simp only [List.length_cons, List.length_append]
    rw [pad2_len hh (by omega), pad2_len mi (by omega), pad2_len se (by omega)]
  unfold matchesTsPattern
  rw [hdata]
  have htake : ((natDigits y ++ pad2 mo ++ pad2 d) ++
      ('-' :: (pad2 hh ++ (pad2 mi ++ pad2 se)))).take 8 =
      natDigits y ++ pad2 mo ++ pad2 d := List.take_left' hla
  have hdrop : ((natDigits y ++ pad2 mo ++ pad2 d) ++
      ('-' :: (pad2 hh ++ (pad2 mi ++ pad2 se)))).drop 8 =
      '-' :: (pad2 hh ++ (pad2 mi ++ pad2 se)) := List.drop_left' hla
  have hdrop9 : ((natDigits y ++ pad2 mo ++ pad2 d) ++
      ('-' :: (pad2 hh ++ (pad2 mi ++ pad2 se)))).drop 9 =
      pad2 hh ++ (pad2 mi ++ pad2 se) := by
    have h98 : (9 : Nat) = 8 + 1 := rfl
    rw [h98, ← List.drop_drop, hdrop]
    rfl
  have hAdig : ∀ c ∈ natDigits y ++ pad2 mo ++ pad2 d, c.isDigit = true := by
    intro c hc
    rcases List.mem_append.mp hc with hc | hc
    · rcases List.mem_append.mp hc with hc | hc
      · exact natDigits_all_digit y c hc
      · exact pad2_all_digit mo c hc
    · exact pad2_all_digit d c hc
  have hBdig : ∀ c ∈ pad2 hh ++ (pad2 mi ++ pad2 se), c.isDigit = true := by
    intro c hc
    rcases List.mem_append.mp hc with hc | hc
    · exact pad2_all_digit hh c hc
    · rcases List.mem_append.mp hc with hc | hc
      · exact pad2_all_digit mi c hc
      · exact pad2_all_digit se c hc
  have hlen : ((natDigits y ++ pad2 mo ++ pad2 d) ++
      ('-' :: (pad2 hh ++ (pad2 mi ++ pad2 se)))).length = 15 := by
    rw [List.length_append, hla, hlb]
  rw [htake, hdrop, hdrop9, hlen]
  simp only [List.all_eq_true, List.head?_cons, Bool.and_eq_true, beq_iff_eq]
  exact ⟨⟨⟨trivial, hAdig⟩, trivial⟩, hBdig⟩

/-! ## Storage bootstrap: `create_bucket_if_not_exists` -/

/-- A botocore `ClientError`, carrying the `Error.Code` string the handler
inspects and the message the handler prints. -/
structure ClientErr where
  code : String
  message : String

/-- Observable outcome of one `create_bucket_if_not_exists` call: the lines
printed to the console and whether `create_bucket` was invoked.  The function
always returns normally (every raised `ClientError` is caught). -/
structure BucketRun where
  log : List String
  createCalled : Bool
deriving DecidableEq

/-- `create_bucket_if_not_exists`, with the outcomes of the two external S3
calls passed explicitly: `probe` is the result of `head_bucket` (`none` =
success, `some e` = raised `ClientError e`), `createRes` the result of
`create_bucket` (consulted only when creation is attempted). -/
def create_bucket_if_not_exists (bucket_name : String)
    (probe : Option ClientErr) (createRes : Option ClientErr) : BucketRun :=
  match probe with
  | none => { log := ["Bucket " ++ bucket_name ++ " exists"], createCalled := false }
  | some e =>
    if e.code = "404" then
      match createRes with
      | none =>
        { log := ["Creating bucket " ++ bucket_name,
                  "Successfully created bucket " ++ bucket_name],
          createCalled := true }
      | some ce =>
        { log := ["Creating bucket " ++ bucket_name,
                  "Error creating bucket: " ++ ce.message],
          createCalled := true }
    else { log := [], createCalled := false }

/-- State of the S3 service as far as this program observes it: whether the
destination bucket exists, and how many `create_bucket` calls have been
issued so far. -/
structure S3State where
  bucketExists : Bool
  createCalls : Nat

/-- One `create_bucket_if_not_exists` call against a faithful S3 service:
the `head_bucket` probe succeeds exactly when the bucket exists and raises a
404 `ClientError` otherwise; `createOk` says whether a creation attempt (if
any) succeeds.  Returns the new service state and the observed run. -/
def ensureBucketStep (bucket_name : String) (s : S3State) (createOk : Bool) :
    S3State × BucketRun :=
  let probe : Option ClientErr :=
    if s.bucketExists then none else some ⟨"404", "Not Found"⟩
  let createRes : Option ClientErr :=
    if createOk then none else some ⟨"InternalError", "create failed"⟩
  let r := create_bucket_if_not_exists bucket_name probe createRes
  ({ bucketExists := s.bucketExists || (r.createCalled && createOk),
     createCalls := s.createCalls + (if r.createCalled then 1 else 0) }, r)

/-! ## Weather client: `fetch_weather` and `fetch_forecast` -/

def weatherBaseUrl : String := "http://api.openweathermap.org/data/2.5/weather"

def forecastBaseUrl : String := "http://api.openweathermap.org/data/2.5/forecast"

/-- The HTTP request `requests.get(base_url, params=params)` issues. -/
structure HttpRequest where
  method : String
  url : String
  params : List (String × String)
deriving DecidableEq

/-- Outcome of the single HTTP attempt: either a response with a status code
and a body (`none` when the body is not valid JSON), or a transport-level
failure (connection error, timeout, ...). -/
inductive HttpOutcome where
  | response (status : Nat) (jsonBody : Option Json)
  | connError (message : String)

/-- Observable result of one fetch call: the request issued, the value
returned to the caller, and the console lines printed. -/
structure FetchRun where
  request : HttpRequest
  result : Option Json
  log : List String

/-- The query parameters both fetchers build. -/
def requestParams (api_key city : String) : List (String × String) :=
  [("q", city), ("appid", api_key), ("units", "imperial")]

/-- Shared body of both fetchers (the source duplicates this code verbatim):
`response.raise_for_status()` raises `HTTPError` exactly for statuses in
400..599; `response.json()` raises a `RequestException` subclass when the
body does not parse; every `RequestException` is caught, logged with the
fetcher-specific prefix `errCtx`, and converted to `None`. -/
def requestJson (o : HttpOutcome) (errCtx : String) : Option Json × List String :=
  match o with
  | .connError m => (none, [errCtx ++ m])
  | .response st body =>
    if 400 ≤ st ∧ st < 600 then (none, [errCtx ++ "HTTPError " ++ toString st])
    else
      match body with
      | some j => (some j, [])
      | none => (none, [errCtx ++ "JSONDecodeError"])

/-- `fetch_weather(city)`. -/
def fetch_weather (api_key city : String) (o : HttpOutcome) : FetchRun :=
  let r := requestJson o "Error fetching weather data: "
  { request := { method := "GET", url := weatherBaseUrl,
                 params := requestParams api_key city },
    result := r.1, log := r.2 }

/-- `fetch_forecast(city)`. -/
def fetch_forecast (api_key city : String) (o : HttpOutcome) : FetchRun :=
  let r := requestJson o "Error fetching weather forecast: "
  { request := { method := "GET", url := forecastBaseUrl,
                 params := requestParams api_key city },
    result := r.1, log := r.2 }

/-! ## Persistence writer: `save_to_s3` -/

/-- An external effect the program performs, in program order: an S3
`put_object` call (with the success flag of that call), an invocation of the
visualizer on a payload, or a console line. -/
inductive Event where
  | put (bucket key : String) (body : Json) (contentType : String) (ok : Bool)
  | viz (payload : Json)
  | log (line : String)

/-- Observable result of one `save_to_s3` call: the effects performed, the
boolean returned, and the state of the caller-held payload object afterwards
(the function mutates it in place). -/
structure SaveRun where
  events : List Event
  ret : Bool
  payloadAfter : Option JsonObj

/-- `save_to_s3(weather_data, file_name)`.  `now` is the instant
`datetime.now()` observes during the call; `putOk` says whether the
`put_object` call (if reached) succeeds or raises a `ClientError` (which is
caught and logged).  The function never lets an exception escape. -/
def save_to_s3 (bucket : String) (weather_data : Option JsonObj)
    (file_name : String) (now : DateTime) (putOk : Bool) : SaveRun :=
  match weather_data with
  | none => { events := [], ret := false, payloadAfter := none }
  | some l =>
    if l.isEmpty then { events := [], ret := false, payloadAfter := some l }
    else
      let ts := strftimeYmdHMS now
      let l2 := objSet l "timestamp" (Json.str ts)
      { events :=
          Event.put bucket ("weather-data/" ++ file_name ++ ".json")
              (Json.obj l2) "application/json" putOk
            :: (if putOk then
                  [Event.log ("Successfully saved data for " ++ file_name ++ " to S3")]
                else
                  [Event.log "Error saving to S3: ClientError"]),
        ret := putOk,
        payloadAfter := some l2 }

/-- Keeps exactly the storage writes and visualizer invocations of a trace. -/
def keepWriteViz : Event → Bool
  | .put _ _ _ _ _ => true
  | .viz _ => true
  | .log _ => false

/-- Whether a trace contains a `put_object` call that succeeded. -/
def hasSuccessfulPut (evs : List Event) : Bool :=
  evs.any (fun e =>
    match e with
    | Event.put _ _ _ _ ok => ok
    | _ => false)

/-! ## Visualizer: the data extraction of `visualize_weather` -/

/-- Python subscription `j[k]` on a parsed JSON value: defined (`some`) only
when `j` is a dict containing key `k`; everything else raises
(`KeyError`/`TypeError`), modelled as `none`. -/
def getField (j : Json) (k : String) : Option Json :=
  match j with
  | .obj l => List.lookup k l
  | _ => none

/-- A Python list comprehension `[f e for e in l]` over JSON entries where
`f` may raise: evaluates left to right, failing as soon as one entry fails. -/
def mapOpt (f : Json → Option Json) : List Json → Option (List Json)
  | [] => some []
  | e :: es =>
    match f e with
    | none => none
    | some x =>
      match mapOpt f es with
      | none => none
      | some xs => some (x :: xs)

/-- `entry['main']['temp']`. -/
def entryTemp (e : Json) : Option Json :=
  (getField e "main").bind (fun m => getField m "temp")

/-- The data-extraction phase of `visualize_weather(weather_data)`: the list
of `dt_txt` values and the list of `main.temp` values, in the order of
`weather_data['list']`.  `none` models the uncaught exception the code
raises on malformed input (missing key, or `list` not an array); the
timestamp comprehension runs first, then the temperature comprehension, and
only then the plotting calls. -/
def visualizeExtract (j : Json) : Option (List Json × List Json) :=
  match getField j "list" with
  | some (Json.arr entries) =>
    match mapOpt (fun e => getField e "dt_txt") entries with
    | none => none
    | some xs =>
      match mapOpt entryTemp entries with
      | none => none
      | some ys => some (xs, ys)
  | _ => none

/-! ## Orchestrator: `main` -/

/-- The outcomes of the external calls made while processing one city: the
two fetch results (after the fetchers' own error handling, so `None` or a
parsed JSON object), the clock instants of the two `save_to_s3` calls, and
the success of the two `put_object` attempts. -/
structure CityOutcome where
  weather : Option JsonObj
  forecast : Option JsonObj
  nowCurrent : DateTime
  nowForecast : DateTime
  putOkCurrent : Bool
  putOkForecast : Bool

/-- The body of the per-city loop in `main`.  Returns the event trace of the
iteration and `true` when the iteration completes normally (`false` when
`visualize_weather` raised on malformed forecast data, which aborts the
whole run).  Note the guard is Python truthiness of both fetch results, and
the payload passed to the visualizer is the forecast dict as already mutated
by the second `save_to_s3` call. -/
def processCity (bucket city : String) (o : CityOutcome) : List Event × Bool :=
  let hd := Event.log ("Fetching weather for " ++ city ++ "...")
  if truthyObj o.weather && truthyObj o.forecast then
    let s1 := save_to_s3 bucket o.weather (city ++ "_current") o.nowCurrent o.putOkCurrent
    let s2 := save_to_s3 bucket o.forecast (city ++ "_forecast") o.nowForecast o.putOkForecast
    let vizPayload :=
      match s2.payloadAfter with
      | some l => Json.obj l
      | none => Json.null
    let vizOk := (visualizeExtract vizPayload).isSome
    (hd :: s1.events ++ s2.events ++ [Event.viz vizPayload] ++
        (if vizOk then
          [Event.log ("Weather and forecast data for " ++ city ++ " saved to S3!")]
        else []),
     vizOk)
  else
    ([hd, Event.log ("Failed to fetch weather data for " ++ city)], true)

/-- The city loop of `main` over a list of cities, stopping early when an
iteration raises (visualizer failure). -/
def runCities (bucket : String) (out : String → CityOutcome) :
    List String → List Event × Bool
  | [] => ([], true)
  | c :: rest =>
    let r := processCity bucket c (out c)
    if r.2 then
      let r2 := runCities bucket out rest
      (r.1 ++ r2.1, r2.2)
    else (r.1, false)

/-- The fixed city list of `main`. -/
def cities : List String := ["Philadelphia", "Seattle", "New York"]

/-- `main()`: ensure the bucket, then process each city in order. -/
def mainRun (bucket : String) (probe : Option ClientErr)
    (createRes : Option ClientErr) (out : String → CityOutcome) :
    List Event × Bool :=
  let b := create_bucket_if_not_exists bucket probe createRes
  let r := runCities bucket out cities
  (b.log.map Event.log ++ r.1, r.2)

/-! ## Claim theorems -/

/-- C3 (amended): a `ClientError` from the existence probe whose code is not
404 is caught and treated as non-fatal — the call returns normally with no
creation attempt — but it is silently ignored, with nothing logged; an error
from bucket creation is caught, logged to the console, and also non-fatal.
(The original claim says a non-NotFound probe error is logged; it is not.) -/
theorem create_bucket_error_handling :
    (∀ bn e cr, e.code ≠ "404" →
      create_bucket_if_not_exists bn (some e) cr
        = { log := [], createCalled := false })
  ∧ (∀ bn m ce,
      create_bucket_if_not_exists bn (some ⟨"404", m⟩) (some ce)
        = { log := ["Creating bucket " ++ bn, "Error creating bucket: " ++ ce.message],
            createCalled := true }) := by
  constructor
  · intro bn e cr h
    simp [create_bucket_if_not_exists, h]
  · intro bn m ce
    rfl

/-- C3 witness: a 301 probe error is swallowed with an empty log and no
creation attempt. -/
theorem create_bucket_error_handling_witness :
    create_bucket_if_not_exists "weather-bucket" (some ⟨"301", "Moved"⟩) none
      = { log := [], createCalled := false } :=
  create_bucket_error_handling.1 "weather-bucket" ⟨"301", "Moved"⟩ none (by decide)

/-- C3 counterexample: a 403 `ClientError` from `head_bucket` produces no
console output at all — the claim that every non-NotFound error is "logged
to the console" is false (the `except` block only logs creation errors). -/
theorem create_bucket_probe_403_not_logged :
    (create_bucket_if_not_exists "weather-bucket" (some ⟨"403", "Forbidden"⟩) none).log
      = [] := rfl

/-- C8: if the bucket already exists or the first `create_bucket_if_not_exists`
call successfully created it, then after the first call the bucket exists,
the second call performs no creation (its probe succeeds), and the two calls
together issue at most one `create_bucket` call. -/
theorem ensure_twice_at_most_one_create (bn : String) (s : S3State) (b1 b2 : Bool)
    (h : s.bucketExists = true ∨ b1 = true) :
    (ensureBucketStep bn s b1).1.bucketExists = true
  ∧ (ensureBucketStep bn (ensureBucketStep bn s b1).1 b2).2.createCalled = false
  ∧ (ensureBucketStep bn (ensureBucketStep bn s b1).1 b2).1.createCalls
      ≤ s.createCalls + 1 := by
  obtain ⟨ex, cc⟩ := s
  rcases h with h | h
  · have hex : ex = true := h
    subst hex
    refine ⟨rfl, rfl, ?_⟩
    simp [ensureBucketStep, create_bucket_if_not_exists]
  · subst h
    cases ex
    · refine ⟨rfl, rfl, ?_⟩
      simp [ensureBucketStep, create_bucket_if_not_exists]
    · refine ⟨rfl, rfl, ?_⟩
      simp [ensureBucketStep, create_bucket_if_not_exists]

/-- C8 witness: starting from a world where the bucket is missing, a first
call that creates it successfully leaves nothing for the second call to do. -/
theorem ensure_twice_at_most_one_create_witness :
    (ensureBucketStep "weather-bucket" ⟨false, 0⟩ true).1.bucketExists = true
  ∧ (ensureBucketStep "weather-bucket"
        (ensureBucketStep "weather-bucket" ⟨false, 0⟩ true).1 true).2.createCalled = false
  ∧ (ensureBucketStep "weather-bucket"
        (ensureBucketStep "weather-bucket" ⟨false, 0⟩ true).1 true).1.createCalls
      ≤ (0 : Nat) + 1 :=
  ensure_twice_at_most_one_create "weather-bucket" ⟨false, 0⟩ true true (Or.inr rfl)

/-- C4: `save_to_s3` on an absent payload returns `False` immediately with no
storage contact; in general it returns `True` exactly when a `put_object`
call succeeded, and on a storage error it logs and returns `False` — it is a
total function, so no exception reaches the caller. -/
theorem save_to_s3_return_contract (bucket : String) (pl : Option JsonObj)
    (file_name : String) (now : DateTime) (putOk : Bool) :
    (pl = none →
      save_to_s3 bucket pl file_name now putOk
        = { events := [], ret := false, payloadAfter := none })
  ∧ ((save_to_s3 bucket pl file_name now putOk).ret = true ↔
      hasSuccessfulPut (save_to_s3 bucket pl file_name now putOk).events = true)
  ∧ (∀ l, pl = some l → l.isEmpty = false → putOk = false →
      Event.log "Error saving to S3: ClientError"
        ∈ (save_to_s3 bucket pl file_name now putOk).events) := by
  refine ⟨?_, ?_, ?_⟩
  · rintro rfl
    rfl
  · cases pl with
    | none => simp [save_to_s3, hasSuccessfulPut]
    | some l =>
      by_cases he : l.isEmpty <;> cases putOk <;>
        simp [save_to_s3, hasSuccessfulPut, he]
  · rintro l rfl he rfl
    simp [save_to_s3, he]

/-- C4 witness: an absent payload yields an immediate failure with no
events. -/
theorem save_to_s3_return_contract_witness :
    save_to_s3 "weather-bucket" none "Seattle_current" ⟨2026, 10, 12, 1, 2, 3⟩ true
      = { events := [], ret := false, payloadAfter := none } :=
  (save_to_s3_return_contract "weather-bucket" none "Seattle_current"
    ⟨2026, 10, 12, 1, 2, 3⟩ true).1 rfl

/-- C9 (amended): on a truthy (non-empty) payload, `save_to_s3` mutates the
caller-held dict in place: afterwards — whether or not the upload succeeded —
it is the original dict with a `timestamp` entry set and all other entries
unchanged.  (The original claim said every non-absent payload; the empty
dict, which is non-absent but falsy, is returned untouched.) -/
theorem save_to_s3_mutates_payload (bucket : String) (l : JsonObj)
    (file_name : String) (now : DateTime) (putOk : Bool)
    (hne : l.isEmpty = false) :
    (save_to_s3 bucket (some l) file_name now putOk).payloadAfter
      = some (objSet l "timestamp" (Json.str (strftimeYmdHMS now)))
  ∧ List.lookup "timestamp" (objSet l "timestamp" (Json.str (strftimeYmdHMS now)))
      = some (Json.str (strftimeYmdHMS now))
  ∧ ∀ k v, k ≠ "timestamp" →
      ((k, v) ∈ objSet l "timestamp" (Json.str (strftimeYmdHMS now)) ↔ (k, v) ∈ l) := by
  refine ⟨?_, objSet_lookup l "timestamp" _,
    fun k v hk => objSet_mem_iff l "timestamp" _ k v hk⟩
  simp [save_to_s3, hne]

/-- C9 witness: a failed upload still leaves the timestamp mutation in the
caller-held payload. -/
theorem save_to_s3_mutates_payload_witness :
    (save_to_s3 "weather-bucket" (some [("cod", Json.num 200)]) "Philadelphia_current"
        ⟨2026, 10, 12, 1, 2, 3⟩ false).payloadAfter
      = some (objSet [("cod", Json.num 200)] "timestamp"
          (Json.str (strftimeYmdHMS ⟨2026, 10, 12, 1, 2, 3⟩))) :=
  (save_to_s3_mutates_payload "weather-bucket" [("cod", Json.num 200)]
    "Philadelphia_current" ⟨2026, 10, 12, 1, 2, 3⟩ false rfl).1

/-- C9 counterexample: the empty dict is a non-absent payload, yet after the
call it carries no `timestamp` field — it is returned exactly as it came in,
so the claim as stated (mutation for every non-absent payload) is false. -/
theorem save_to_s3_empty_payload_unchanged :
    (save_to_s3 "weather-bucket" (some []) "Philadelphia_current"
        ⟨2026, 10, 12, 1, 2, 3⟩ true).payloadAfter = some []
  ∧ (some ([] : JsonObj) ≠ (none : Option JsonObj))
  ∧ List.lookup "timestamp" ([] : JsonObj) = none :=
  ⟨rfl, by simp, rfl⟩

/-- C10: `save_to_s3` returns failure with no storage contact and no
timestamp mutation for every falsy payload — the empty dict included, not
only `None` — and the orchestrator takes the failure branch for a city as
soon as either fetch result is falsy, again including the empty dict. -/
theorem save_and_orchestrator_falsy :
    (∀ bucket pl file_name now putOk, truthyObj pl = false →
      save_to_s3 bucket pl file_name now putOk
        = { events := [], ret := false, payloadAfter := pl })
  ∧ (∀ bucket c o, truthyObj o.weather = false ∨ truthyObj o.forecast = false →
      processCity bucket c o
        = ([Event.log ("Fetching weather for " ++ c ++ "..."),
            Event.log ("Failed to fetch weather data for " ++ c)], true)) := by
  constructor
  · intro bucket pl file_name now putOk h
    cases pl with
    | none => rfl
    | some l =>
      have he : l.isEmpty = true := by simpa [truthyObj] using h
      simp [save_to_s3, he]
  · intro bucket c o h
    have hcond : (truthyObj o.weather && truthyObj o.forecast) = false := by
      rcases h with h | h <;> simp [h]
    simp [processCity, hcond]

/-- C10 witness: the empty dict is treated as a failed result both by
`save_to_s3` and by the orchestrator guard. -/
theorem save_and_orchestrator_falsy_witness :
    save_to_s3 "weather-bucket" (some []) "Seattle_current" ⟨2026, 10, 12, 1, 2, 3⟩ true
      = { events := [], ret := false, payloadAfter := some [] }
  ∧ processCity "weather-bucket" "Philadelphia"
      { weather := some [], forecast := some [("cod", Json.num 200)],
        nowCurrent := ⟨2026, 10, 12, 1, 2, 3⟩, nowForecast := ⟨2026, 10, 12, 1, 2, 3⟩,
        putOkCurrent := true, putOkForecast := true }
      = ([Event.log "Fetching weather for Philadelphia...",
          Event.log "Failed to fetch weather data for Philadelphia"], true) :=
  ⟨save_and_orchestrator_falsy.1 "weather-bucket" (some []) "Seattle_current"
      ⟨2026, 10, 12, 1, 2, 3⟩ true rfl,
   save_and_orchestrator_falsy.2 "weather-bucket" "Philadelphia"
      { weather := some [], forecast := some [("cod", Json.num 200)],
        nowCurrent := ⟨2026, 10, 12, 1, 2, 3⟩, nowForecast := ⟨2026, 10, 12, 1, 2, 3⟩,
        putOkCurrent := true, putOkForecast := true } (Or.inl rfl)⟩

/-- C5: the body uploaded for a truthy payload is the payload with a
`timestamp` field set to `now` formatted as YYYYMMDD-HHMMSS: every original
field other than `timestamp` is preserved verbatim, the `timestamp` entry
holds the formatted stamp, and the stamp matches the pattern "eight digits,
a dash, six digits". -/
theorem save_to_s3_stored_body (bucket : String) (l : JsonObj)
    (file_name : String) (now : DateTime)
    (hne : l.isEmpty = false) (hdt : validDT now) :
    (save_to_s3 bucket (some l) file_name now true).events.head?
      = some (Event.put bucket ("weather-data/" ++ file_name ++ ".json")
          (Json.obj (objSet l "timestamp" (Json.str (strftimeYmdHMS now))))
          "application/json" true)
  ∧ (∀ k v, k ≠ "timestamp" →
      ((k, v) ∈ l ↔ (k, v) ∈ objSet l "timestamp" (Json.str (strftimeYmdHMS now))))
  ∧ List.lookup "timestamp" (objSet l "timestamp" (Json.str (strftimeYmdHMS now)))
      = some (Json.str (strftimeYmdHMS now))
  ∧ matchesTsPattern (strftimeYmdHMS now) = true := by
  refine ⟨?_, fun k v hk => (objSet_mem_iff l "timestamp" _ k v hk).symm,
    objSet_lookup l "timestamp" _, strftime_matches now hdt⟩
  simp [save_to_s3, hne]

/-- C5 witness: a concrete upload at a concrete clock instant carries a
pattern-conforming timestamp. -/
theorem save_to_s3_stored_body_witness :
    matchesTsPattern (strftimeYmdHMS ⟨2026, 10, 12, 3, 4, 5⟩) = true
  ∧ List.lookup "timestamp"
      (objSet [("cod", Json.num 200)] "timestamp"
        (Json.str (strftimeYmdHMS ⟨2026, 10, 12, 3, 4, 5⟩)))
      = some (Json.str (strftimeYmdHMS ⟨2026, 10, 12, 3, 4, 5⟩)) :=
  ⟨(save_to_s3_stored_body "weather-bucket" [("cod", Json.num 200)] "Seattle_forecast"
      ⟨2026, 10, 12, 3, 4, 5⟩ rfl (by decide)).2.2.2,
   (save_to_s3_stored_body "weather-bucket" [("cod", Json.num 200)] "Seattle_forecast"
      ⟨2026, 10, 12, 3, 4, 5⟩ rfl (by decide)).2.2.1⟩

/-- Helper: a Python list comprehension whose per-entry extraction succeeds
on every entry returns exactly the extracted values, in order. -/
theorem mapOpt_forall2 {α : Type} (g : α → Json) (f : Json → Option Json)
    {l : List Json} {xs : List α}
    (h : List.Forall₂ (fun e x => f e = some (g x)) l xs) :
    mapOpt f l = some (xs.map g) := by
  induction h with
  | nil => rfl
  | cons h1 h2 ih => simp [mapOpt, h1, ih]

/-- The spec example forecast payload: two entries with `dt_txt` and
`main.temp`. -/
def exampleForecast : Json :=
  Json.obj [("list", Json.arr
    [Json.obj [("dt_txt", Json.str "2024-01-01 00:00:00"),
               ("main", Json.obj [("temp", Json.num 32)])],
     Json.obj [("dt_txt", Json.str "2024-01-01 03:00:00"),
               ("main", Json.obj [("temp", Json.num (35.5 : ℚ))])]])]

/-- C6: when every entry of `forecast.list` carries a `dt_txt` string and a
`main.temp` number, the visualizer extracts the `dt_txt` values as x-series
and the `main.temp` values as y-series, in the original list order; in
particular on the two-entry example payload it extracts exactly the two
timestamps and the temperatures 32.0 and 35.5 in order. -/
theorem visualize_extract_in_order :
    (∀ (j : Json) (entries : List Json) (xs : List String) (ys : List ℚ),
      getField j "list" = some (Json.arr entries) →
      List.Forall₂ (fun e s => getField e "dt_txt" = some (Json.str s)) entries xs →
      List.Forall₂ (fun e q => entryTemp e = some (Json.num q)) entries ys →
      visualizeExtract j = some (xs.map Json.str, ys.map Json.num))
  ∧ visualizeExtract exampleForecast
      = some ([Json.str "2024-01-01 00:00:00", Json.str "2024-01-01 03:00:00"],
              [Json.num 32, Json.num (35.5 : ℚ)]) := by
  constructor
  · intro j entries xs ys hl h1 h2
    have m1 := mapOpt_forall2 Json.str (fun e => getField e "dt_txt") h1
    have m2 := mapOpt_forall2 Json.num entryTemp h2
    simp [visualizeExtract, hl, m1, m2]
  · rfl

/-- C6 witness: a one-entry forecast extracts its single pair. -/
theorem visualize_extract_in_order_witness :
    visualizeExtract (Json.obj [("list", Json.arr
        [Json.obj [("dt_txt", Json.str "2024-01-01 00:00:00"),
                   ("main", Json.obj [("temp", Json.num 7)])]])])
      = some (["2024-01-01 00:00:00"].map Json.str, [(7 : ℚ)].map Json.num) :=
  visualize_extract_in_order.1
    (Json.obj [("list", Json.arr
      [Json.obj [("dt_txt", Json.str "2024-01-01 00:00:00"),
                 ("main", Json.obj [("temp", Json.num 7)])]])])
    [Json.obj [("dt_txt", Json.str "2024-01-01 00:00:00"),
               ("main", Json.obj [("temp", Json.num 7)])]]
    ["2024-01-01 00:00:00"] [(7 : ℚ)] rfl
    (List.Forall₂.cons rfl List.Forall₂.nil)
    (List.Forall₂.cons rfl List.Forall₂.nil)

/-- C7 (amended): each fetcher issues a single GET to its fixed base URL
with query parameters q, appid, units=imperial; it returns the parsed body
for any response whose status is outside 400..599 (in particular any 2xx)
and whose body parses as JSON; and on a transport failure, a 4xx/5xx status,
or an unparseable body it logs and returns an absent value, never raising.
(The original claim said absent for every non-2xx status; 3xx responses
with a JSON body are in fact returned, since `raise_for_status` only raises
for 4xx/5xx.) -/
theorem fetch_contract (api_key city : String) (o : HttpOutcome) :
    (fetch_weather api_key city o).request
      = { method := "GET", url := weatherBaseUrl, params := requestParams api_key city }
  ∧ (fetch_forecast api_key city o).request
      = { method := "GET", url := forecastBaseUrl, params := requestParams api_key city }
  ∧ (∀ st b, o = HttpOutcome.response st b → ¬ (400 ≤ st ∧ st < 600) →
      (fetch_weather api_key city o).result = b
      ∧ (fetch_forecast api_key city o).result = b)
  ∧ (∀ st b, o = HttpOutcome.response st b → 400 ≤ st → st < 600 →
      (fetch_weather api_key city o).result = none
      ∧ (fetch_weather api_key city o).log ≠ []
      ∧ (fetch_forecast api_key city o).result = none
      ∧ (fetch_forecast api_key city o).log ≠ [])
  ∧ (∀ m, o = HttpOutcome.connError m →
      (fetch_weather api_key city o).result = none
      ∧ (fetch_weather api_key city o).log ≠ []
      ∧ (fetch_forecast api_key city o).result = none
      ∧ (fetch_forecast api_key city o).log ≠ [])
  ∧ (∀ st, o = HttpOutcome.response st none →
      (fetch_weather api_key city o).log ≠ []
      ∧ (fetch_forecast api_key city o).log ≠ []) := by
  refine ⟨rfl, rfl, ?_, ?_, ?_, ?_⟩
  · rintro st b rfl hn
    cases b <;> simp [fetch_weather, fetch_forecast, requestJson, hn]
  · rintro st b rfl h4 h6
    have hc : 400 ≤ st ∧ st < 600 := ⟨h4, h6⟩
    simp [fetch_weather, fetch_forecast, requestJson, hc]
  · rintro m rfl
    simp [fetch_weather, fetch_forecast, requestJson]
  · rintro st rfl
    by_cases hc : 400 ≤ st ∧ st < 600 <;>
      simp [fetch_weather, fetch_forecast, requestJson, hc]

/-- C7 witness: a 200 response with a JSON body yields the parsed body, and
the request carries exactly the three documented query parameters. -/
theorem fetch_contract_witness :
    (fetch_weather "k" "Seattle" (HttpOutcome.response 200 (some (Json.obj [])))).request
      = { method := "GET", url := weatherBaseUrl, params := requestParams "k" "Seattle" }
  ∧ (fetch_weather "k" "Seattle" (HttpOutcome.response 200 (some (Json.obj [])))).result
      = some (Json.obj []) :=
  ⟨(fetch_contract "k" "Seattle" (HttpOutcome.response 200 (some (Json.obj [])))).1,
   ((fetch_contract "k" "Seattle" (HttpOutcome.response 200 (some (Json.obj [])))).2.2.1
      200 (some (Json.obj [])) rfl (by decide)).1⟩

/-- C7 counterexample: a response with the non-2xx status 300 and a JSON
body is returned to the caller, not converted to an absent value —
`raise_for_status` raises only for statuses in 400..599. -/
theorem fetch_weather_300_returns_body :
    (fetch_weather "k" "Seattle"
        (HttpOutcome.response 300 (some (Json.obj [("cod", Json.num 300)])))).result
      = some (Json.obj [("cod", Json.num 300)])
  ∧ ¬ (200 ≤ 300 ∧ 300 ≤ 299) :=
  ⟨rfl, by decide⟩

/-- C1 (amended): for a city in the fixed list whose two fetch results are
both truthy (non-absent and non-empty), the iteration performs exactly two
storage writes — first to key weather-data/CITY_current.json, then to key
weather-data/CITY_forecast.json — followed by exactly one visualizer
invocation, on the forecast payload (as stamped by its save).  (The original
claim demanded this for all non-absent payloads; an empty-dict result is
non-absent yet routed to the failure branch with zero writes.) -/
theorem processCity_two_writes_then_viz (bucket c : String) (o : CityOutcome)
    (hc : c ∈ cities) (l1 l2 : JsonObj)
    (h1 : o.weather = some l1) (h1n : l1.isEmpty = false)
    (h2 : o.forecast = some l2) (h2n : l2.isEmpty = false) :
    (processCity bucket c o).1.filter keepWriteViz
      = [Event.put bucket ("weather-data/" ++ (c ++ "_current") ++ ".json")
           (Json.obj (objSet l1 "timestamp" (Json.str (strftimeYmdHMS o.nowCurrent))))
           "application/json" o.putOkCurrent,
         Event.put bucket ("weather-data/" ++ (c ++ "_forecast") ++ ".json")
           (Json.obj (objSet l2 "timestamp" (Json.str (strftimeYmdHMS o.nowForecast))))
           "application/json" o.putOkForecast,
         Event.viz (Json.obj (objSet l2 "timestamp"
           (Json.str (strftimeYmdHMS o.nowForecast))))] := by
  have hw : truthyObj o.weather = true := by rw [h1]; simp [truthyObj, h1n]
  have hf : truthyObj o.forecast = true := by rw [h2]; simp [truthyObj, h2n]
  simp only [processCity, hw, hf, Bool.and_self, if_true, h1, h2]
  simp only [save_to_s3, h1n, h2n]
  cases o.putOkCurrent <;> cases o.putOkForecast <;>
    simp [keepWriteViz, truthyObj, h1n, h2n, apply_ite (List.filter keepWriteViz)]

/-- C1 witness: a concrete truthy pair of payloads produces the two writes
and the visualizer call, even though the forecast upload fails. -/
theorem processCity_two_writes_then_viz_witness :
    (processCity "weather-bucket" "Philadelphia"
        { weather := some [("cod", Json.num 200)],
          forecast := some [("list", Json.arr [])],
          nowCurrent := ⟨2026, 10, 12, 3, 4, 5⟩, nowForecast := ⟨2026, 10, 12, 6, 7, 8⟩,
          putOkCurrent := true, putOkForecast := false }).1.filter keepWriteViz
      = [Event.put "weather-bucket"
           ("weather-data/" ++ ("Philadelphia" ++ "_current") ++ ".json")
           (Json.obj (objSet [("cod", Json.num 200)] "timestamp"
             (Json.str (strftimeYmdHMS ⟨2026, 10, 12, 3, 4, 5⟩))))
           "application/json" true,
         Event.put "weather-bucket"
           ("weather-data/" ++ ("Philadelphia" ++ "_forecast") ++ ".json")
           (Json.obj (objSet [("list", Json.arr [])] "timestamp"
             (Json.str (strftimeYmdHMS ⟨2026, 10, 12, 6, 7, 8⟩))))
           "application/json" false,
         Event.viz (Json.obj (objSet [("list", Json.arr [])] "timestamp"
           (Json.str (strftimeYmdHMS ⟨2026, 10, 12, 6, 7, 8⟩))))] :=
  processCity_two_writes_then_viz "weather-bucket" "Philadelphia"
    { weather := some [("cod", Json.num 200)],
      forecast := some [("list", Json.arr [])],
      nowCurrent := ⟨2026, 10, 12, 3, 4, 5⟩, nowForecast := ⟨2026, 10, 12, 6, 7, 8⟩,
      putOkCurrent := true, putOkForecast := false }
    (by decide) [("cod", Json.num 200)] [("list", Json.arr [])] rfl rfl rfl rfl

/-- The concrete per-city outcome for the C1 counterexample: the current
weather fetch returned the empty JSON object — a valid, non-absent dict. -/
def emptyWeatherOutcome : CityOutcome :=
  { weather := some [], forecast := some [("cod", Json.num 200)],
    nowCurrent := ⟨2026, 1, 1, 0, 0, 0⟩, nowForecast := ⟨2026, 1, 1, 0, 0, 0⟩,
    putOkCurrent := true, putOkForecast := true }

/-- C1 counterexample: both fetch results are non-absent, yet the iteration
performs zero storage writes and zero visualizer calls — the guard tests
Python truthiness, and the empty dict is falsy, so the claim over all
non-absent payloads is false. -/
theorem processCity_nonabsent_no_writes :
    emptyWeatherOutcome.weather ≠ none
  ∧ emptyWeatherOutcome.forecast ≠ none
  ∧ "Philadelphia" ∈ cities
  ∧ (processCity "weather-bucket" "Philadelphia" emptyWeatherOutcome).1.filter
      keepWriteViz = [] :=
  ⟨by simp [emptyWeatherOutcome], by simp [emptyWeatherOutcome], by decide, rfl⟩

/-- C2: for a city whose fetches yield at least one absent result, the
iteration performs no storage write and no visualizer call, prints only the
progress line and the failure line, and completes normally; consequently,
inside the city loop the remaining cities are still processed. -/
theorem processCity_fetch_failure (bucket c : String) (o : CityOutcome)
    (h : o.weather = none ∨ o.forecast = none) :
    processCity bucket c o
      = ([Event.log ("Fetching weather for " ++ c ++ "..."),
          Event.log ("Failed to fetch weather data for " ++ c)], true)
  ∧ ∀ (out : String → CityOutcome) (rest : List String), out c = o →
      (runCities bucket out (c :: rest)).1
        = Event.log ("Fetching weather for " ++ c ++ "...")
          :: Event.log ("Failed to fetch weather data for " ++ c)
          :: (runCities bucket out rest).1
      ∧ (runCities bucket out (c :: rest)).2 = (runCities bucket out rest).2 := by
  have hcond : (truthyObj o.weather && truthyObj o.forecast) = false := by
    rcases h with h | h <;> simp [h, truthyObj]
  have hp : processCity bucket c o
      = ([Event.log ("Fetching weather for " ++ c ++ "..."),
          Event.log ("Failed to fetch weather data for " ++ c)], true) := by
    simp [processCity, hcond]
  refine ⟨hp, ?_⟩
  intro out rest hout
  constructor <;> simp [runCities, hout, hp]

/-- C2 witness: a city with an absent current-weather result is logged as
failed, produces no write and no visualizer call, and the loop goes on to
the remaining cities. -/
theorem processCity_fetch_failure_witness :
    processCity "weather-bucket" "Seattle"
        { weather := none, forecast := some [("cod", Json.num 200)],
          nowCurrent := ⟨2026, 1, 1, 0, 0, 0⟩, nowForecast := ⟨2026, 1, 1, 0, 0, 0⟩,
          putOkCurrent := true, putOkForecast := true }
      = ([Event.log "Fetching weather for Seattle...",
          Event.log "Failed to fetch weather data for Seattle"], true) :=
  (processCity_fetch_failure "weather-bucket" "Seattle"
    { weather := none, forecast := some [("cod", Json.num 200)],
      nowCurrent := ⟨2026, 1, 1, 0, 0, 0⟩, nowForecast := ⟨2026, 1, 1, 0, 0, 0⟩,
      putOkCurrent := true, putOkForecast := true } (Or.inl rfl)).1
